import Mathlib

/-!
Shallow embedding of `src/static/js/app.js` (emotion-based product
recommender, browser client).  The client issues HTTP requests, renders
HTML strings from JSON-shaped responses and mutates a small set of DOM
elements.  We model:

* JSON numbers as exact decimals `JsNum` (mantissa times 10^-exp), the
  form in which they occur in JSON texts;
* request bodies as association lists of field name and `JVal`;
* every externally visible action of a flow (network request issued,
  console log, user alert, DOM mutation, modal display, local-storage
  write) as an `Event`; a flow is a function from its input and the
  outcomes of its sequential HTTP calls to the list of events it emits;
* `fetch` outcomes as either a transport error or a status code plus a
  parsed body; `makeRequest` turns a non-2xx status into a thrown error
  (`Except.error`) after logging, exactly as the source does.
-/

namespace EmotionApp

/-- Decimal representation of a JSON/JS number: `mant / 10 ^ exp`. -/
structure JsNum where
  mant : Int
  exp : Nat
deriving DecidableEq, Repr

/-- JSON value as serialized into request bodies by the client. -/
inductive JVal where
  | str : String → JVal
  | num : JsNum → JVal
  | nul : JVal
  | obj : List (String × JVal) → JVal

/-- JS truthiness of an optional number (`undefined`, `null` and `0` are falsy). -/
def numTruthy : Option JsNum → Bool
  | none => false
  | some n => n.mant != 0

/-- JS truthiness of an optional string (`undefined`, `null` and `""` are falsy). -/
def strTruthy : Option String → Bool
  | none => false
  | some s => s != ""

/-- Serialization of an optional string: JS `null` becomes JSON `null`. -/
def joptStr : Option String → JVal
  | none => JVal.nul
  | some s => JVal.str s

/-- Model of JS `Math.floor` on a decimal number. -/
def jsFloor (n : JsNum) : Int := Int.fdiv n.mant (10 ^ n.exp)

/-- Model of JS `Math.round (x * 100)` on a decimal number
(round half up, i.e. floor of `x * 100 + 1/2`). -/
def jsRound100 (n : JsNum) : Int :=
  Int.fdiv (2 * (100 * n.mant) + 10 ^ n.exp) (2 * 10 ^ n.exp)

/-- Model of JS `String.repeat`: `n` copies of `s`. -/
def strRepeat (s : String) : Nat → String
  | 0 => ""
  | n + 1 => s ++ strRepeat s n

/-- Digits of the fractional part of a decimal, with trailing zeros removed
(empty when the number is an integer). -/
def fracDigits (n : JsNum) : String :=
  let a := n.mant.natAbs
  let p := 10 ^ n.exp
  let ds := toString (a % p)
  let padded := strRepeat "0" (n.exp - ds.length) ++ ds
  String.mk (((padded.data.reverse).dropWhile (fun c => c = '0')).reverse)

/-- Model of JS number-to-string conversion for decimals: integer part,
then a point and the fractional digits when they are not all zero. -/
def jsNumToString (n : JsNum) : String :=
  let sign := if n.mant < 0 then "-" else ""
  let ip := toString (n.mant.natAbs / 10 ^ n.exp)
  let fr := fracDigits n
  if fr = "" then sign ++ ip else sign ++ ip ++ "." ++ fr

/-- Model of JS `String.prototype.trim`: drop leading and trailing
whitespace. -/
def jsTrim (s : String) : String :=
  String.mk (((s.data.dropWhile Char.isWhitespace).reverse.dropWhile Char.isWhitespace).reverse)

/-- Visible effects of the client: requests issued, console logs, alerts,
DOM mutations, modal display and local-storage writes. -/
inductive Event where
  | request : String → Option (List (String × JVal)) → Event
  | consoleError : String → Event
  | alert : String → Event
  | setDisabled : String → Bool → Event
  | setHTML : String → String → Event
  | setText : String → String → Event
  | setDisplay : String → String → Event
  | scrollIntoView : String → Event
  | showModal : String → Event
  | localSet : String → String → Event

/-- Outcome of a `fetch` call: transport failure, or an HTTP status code
together with the parsed JSON body. -/
inductive HttpOutcome (α : Type) where
  | transportError : HttpOutcome α
  | response : Nat → α → HttpOutcome α

/-- Model of `Response.ok`: status in the 2xx range. -/
def statusOk (st : Nat) : Bool := decide (200 ≤ st) && decide (st < 300)

/-- Model of `makeRequest`: issue the request, and on transport failure or
non-2xx status log `API request failed:` and rethrow; on a 2xx status
return the parsed body.  Returns the emitted events and the result. -/
def makeRequest {α : Type} (endpoint : String)
    (body : Option (List (String × JVal))) (o : HttpOutcome α) :
    List Event × Except Unit α :=
  match o with
  | HttpOutcome.transportError =>
      ([Event.request endpoint body, Event.consoleError "API request failed:"],
       Except.error ())
  | HttpOutcome.response st a =>
      if statusOk st then
        ([Event.request endpoint body], Except.ok a)
      else
        ([Event.request endpoint body, Event.consoleError "API request failed:"],
         Except.error ())

/-- Per-session client state: the user identity and the last analyzed
emotion (`currentEmotion`, `null` at construction). -/
structure ClientState where
  userId : String
  currentEmotion : Option String
deriving DecidableEq, Repr

/-- Local storage contents relevant to the client: the `userId` key. -/
structure LocalStorage where
  userId : Option String
deriving DecidableEq, Repr

/-- Model of `generateUserId`: build `user_` plus the random suffix and
persist it under the `userId` key. -/
def generateUserId (rand : String) : String × Event :=
  ("user_" ++ rand, Event.localSet "userId" ("user_" ++ rand))

/-- Model of the constructor: `localStorage.getItem('userId') || this.generateUserId()`.
`getItem` yields `null` when the key is absent; `||` falls through on any
falsy value, so an absent (or empty) stored identity triggers generation. -/
def constructClient (ls : LocalStorage) (rand : String) :
    ClientState × LocalStorage × List Event :=
  if strTruthy ls.userId then
    ({ userId := ls.userId.getD "", currentEmotion := none }, ls, [])
  else
    let g := generateUserId rand
    ({ userId := g.1, currentEmotion := none }, { userId := some g.1 }, [g.2])

/-- Body of `POST /analyze-sentiment`: `{ text: text }`. -/
def analyzeBody (text : String) : List (String × JVal) :=
  [("text", JVal.str text)]

/-- Body of `POST /recommendations`: `{ user_id, context, limit: 8 }`. -/
def recommendationsBody (s : ClientState) (context : List (String × JVal)) :
    List (String × JVal) :=
  [("user_id", JVal.str s.userId),
   ("context", JVal.obj context),
   ("limit", JVal.num ⟨8, 0⟩)]

/-- Body of `POST /search`: `{ query, emotion_context, limit: 10 }`. -/
def searchBody (query : String) (emotionContext : Option String) :
    List (String × JVal) :=
  [("query", JVal.str query),
   ("emotion_context", joptStr emotionContext),
   ("limit", JVal.num ⟨10, 0⟩)]

/-- Body of `POST /track-interaction`: `{ user_id, product_id, action, emotion }`. -/
def trackInteractionBody (s : ClientState) (productId action : String)
    (emotion : Option String) : List (String × JVal) :=
  [("user_id", JVal.str s.userId),
   ("product_id", JVal.str productId),
   ("action", JVal.str action),
   ("emotion", joptStr emotion)]

/-- Product entity as received from the backend. -/
structure Product where
  product_id : String
  name : String
  description : String
  price : JsNum
  category : String
  rating : JsNum
  brand : String
  features : Option (List String)
  emotion_tags : Option (List String)
  image_url : Option String

/-- Extra rendering data destructured from `extraInfo` in `renderProductCard`. -/
structure ExtraInfo where
  confidence_score : Option JsNum := none
  explanation : Option String := none
  recommendation_reason : Option String := none

/-- Sentiment payload of a successful `/analyze-sentiment` response. -/
structure Sentiment where
  primary_emotion : String
  mood_category : String
  emotion_intensity : JsNum
  shopping_motivation : String

/-- Envelope of `/analyze-sentiment`. -/
structure SentimentResponse where
  success : Bool
  sentiment : Sentiment

/-- One recommendation: a product plus scoring metadata. -/
structure Recommendation where
  product : Product
  confidence_score : Option JsNum
  explanation : Option String
  recommendation_reason : Option String

/-- Envelope of `/recommendations`. -/
structure RecommendationsResponse where
  success : Bool
  recommendations : List Recommendation

/-- One search result: a product plus similarity metadata. -/
structure SearchResult where
  product : Product
  similarity_score : JsNum
  explanation : String

/-- Envelope of `/search`. -/
structure SearchResponse where
  success : Bool
  results : List SearchResult

/-- Envelope of `/products`. -/
structure ProductsResponse where
  success : Bool
  products : List Product

/-- Acknowledgement returned by `/track-interaction`. -/
structure TrackAck where
  success : Bool

/-- One entry of `similar_products` in a `/similar-products/{id}` response. -/
structure SimilarItem where
  product : Product
  similarity_score : JsNum

/-- Envelope of `/similar-products/{id}`. -/
structure SimilarResponse where
  success : Bool
  target_product : Product
  similar_products : List SimilarItem

/-- Model of `renderEmotionIndicators`: one badge per emotion tag, joined
with the empty separator. -/
def renderEmotionIndicators (emotions : List String) : String :=
  String.join (emotions.map (fun emotion =>
    "<span class=\"emotion-indicator emotion-" ++ emotion ++ "\">" ++ emotion ++ "</span>"))

/-- Rating glyph run of a product card:
`'★'.repeat(Math.floor(rating))` followed by `'☆'.repeat(5 - Math.floor(rating))`. -/
def ratingStars (r : JsNum) : String :=
  strRepeat "★" (jsFloor r).toNat ++ strRepeat "☆" (5 - (jsFloor r).toNat)

/-- Confidence badge of a product card, present only when
`confidence_score` is truthy. -/
def confidenceBadge (cs : Option JsNum) : String :=
  if numTruthy cs then
    "<div class=\"confidence-score\">" ++ toString (jsRound100 (cs.getD ⟨0, 0⟩))
      ++ "% match</div>"
  else ""

/-- Extra card class, present only when `confidence_score` is truthy. -/
def confidenceClass (cs : Option JsNum) : String :=
  if numTruthy cs then "recommendation-card" else ""

/-- Explanation block of a product card, present only when `explanation`
is truthy. -/
def explanationBlock (e : Option String) : String :=
  if strTruthy e then
    "\n                            <div class=\"alert alert-light p-2 mb-3\">\n                                <small><i class=\"bi bi-lightbulb text-warning\"></i> "
      ++ e.getD "" ++ "</small>\n                            </div>\n                        "
  else ""

/-- Card markup before the rating span (template lines 94-104). -/
def cardBeforeRating (product : Product) (extraInfo : ExtraInfo) : String :=
  "\n            <div class=\"col-md-6 col-lg-4 mb-4\">\n                <div class=\"card product-card h-100 "
  ++ confidenceClass extraInfo.confidence_score
  ++ "\">\n                    "
  ++ confidenceBadge extraInfo.confidence_score
  ++ "\n                    <div class=\"card-body\">\n                        <h5 class=\"card-title\">"
  ++ product.name
  ++ "</h5>\n                        <p class=\"card-text text-muted\">"
  ++ product.description
  ++ "</p>\n                        \n                        <div class=\"mb-2\">\n                            <small class=\"text-muted\">Category: "
  ++ product.category
  ++ "</small><br>\n                            <strong class=\"text-success\">$"
  ++ jsNumToString product.price
  ++ "</strong>\n                            <span class=\"text-warning ms-2\">\n                                "

/-- Rating span contents (template lines 105-106): the glyph run, the
layout whitespace of the template, then the literal rating. -/
def ratingSpanText (r : JsNum) : String :=
  ratingStars r ++ "\n                                " ++ jsNumToString r

/-- Card markup after the rating span (template lines 107-134). -/
def cardAfterRating (product : Product) (extraInfo : ExtraInfo) : String :=
  "\n                            </span>\n                        </div>\n                        \n                        <div class=\"mb-3\">\n                            "
  ++ renderEmotionIndicators (product.emotion_tags.getD [])
  ++ "\n                        </div>\n                        \n                        "
  ++ explanationBlock extraInfo.explanation
  ++ "\n                        \n                        <div class=\"d-flex gap-2 mt-auto\">\n                            <button class=\"btn btn-primary btn-sm flex-fill\" onclick=\"app.viewProduct(\x27"
  ++ product.product_id
  ++ "\x27)\">\n                                <i class=\"bi bi-eye\"></i> View\n                            </button>\n                            <button class=\"btn btn-outline-success btn-sm\" onclick=\"app.trackInteraction(\x27"
  ++ product.product_id
  ++ "\x27, \x27like\x27)\">\n                                <i class=\"bi bi-heart\"></i>\n                            </button>\n                            <button class=\"btn btn-outline-primary btn-sm\" onclick=\"app.trackInteraction(\x27"
  ++ product.product_id
  ++ "\x27, \x27add_to_cart\x27)\">\n                                <i class=\"bi bi-cart-plus\"></i>\n                            </button>\n                        </div>\n                    </div>\n                </div>\n            </div>\n        "

/-- Model of `renderProductCard`: the card template of lines 93-134 of
`app.js`, with each JS interpolation replaced by the matching model
function. -/
def renderProductCard (product : Product) (extraInfo : ExtraInfo) : String :=
  cardBeforeRating product extraInfo
  ++ ratingSpanText product.rating
  ++ cardAfterRating product extraInfo

/-- Card a recommendation entry is rendered with in the mood flow. -/
def renderRecommendation (rec : Recommendation) : String :=
  renderProductCard rec.product
    { confidence_score := rec.confidence_score
      explanation := rec.explanation
      recommendation_reason := rec.recommendation_reason }

/-- Model of JS `substring(0, n)`: the first `n` characters. -/
def jsSubstring (s : String) (n : Nat) : String := String.mk (s.data.take n)

/-- Sub-card of one similar product in the detail modal (lines 184-200). -/
def similarItemHtml (item : SimilarItem) : String :=
  "\n                                <div class=\"col-md-4 mb-3\">\n                                    <div class=\"card\">\n                                        <div class=\"card-body p-3\">\n                                            <h6 class=\"card-title\">"
  ++ item.product.name
  ++ "</h6>\n                                            <p class=\"card-text small\">"
  ++ jsSubstring item.product.description 100
  ++ "...</p>\n                                            <div class=\"d-flex justify-content-between align-items-center\">\n                                                <strong class=\"text-success\">$"
  ++ jsNumToString item.product.price
  ++ "</strong>\n                                                <span class=\"similarity-score\">"
  ++ toString (jsRound100 item.similarity_score)
  ++ "% similar</span>\n                                            </div>\n                                            <button class=\"btn btn-sm btn-outline-primary mt-2\" onclick=\"app.viewProduct(\x27"
  ++ item.product.product_id
  ++ "\x27)\">\n                                                View\n                                            </button>\n                                        </div>\n                                    </div>\n                                </div>\n                            "

/-- Similar-products section of the modal, present only when the list is
non-empty (lines 180-202). -/
def similarSectionHtml (similarProducts : List SimilarItem) : String :=
  if 0 < similarProducts.length then
    "\n                        <hr class=\"my-4\">\n                        <h5><i class=\"bi bi-heart-fill text-danger\"></i> You might also like</h5>\n                        <div class=\"row\">\n                            "
    ++ String.join ((similarProducts.take 3).map similarItemHtml)
    ++ "\n                        </div>\n                    "
  else ""

/-- Modal body built by `viewProduct` on a successful similar-products
response (lines 155-203). -/
def modalBodyHtml (product : Product) (similarProducts : List SimilarItem) : String :=
  "\n                    <div class=\"row\">\n                        <div class=\"col-md-6\">\n                            <img src=\""
  ++ (if strTruthy product.image_url then product.image_url.getD ""
      else "/static/images/placeholder.jpg")
  ++ "\" \n                                 class=\"img-fluid rounded\" alt=\""
  ++ product.name
  ++ "\">\n                        </div>\n                        <div class=\"col-md-6\">\n                            <h4>"
  ++ product.name
  ++ "</h4>\n                            <p class=\"text-muted\">"
  ++ product.description
  ++ "</p>\n                            <h5 class=\"text-success\">$"
  ++ jsNumToString product.price
  ++ "</h5>\n                            <p>\n                                <span class=\"text-warning\">\n                                    "
  ++ ratingStars product.rating
  ++ "\n                                    "
  ++ jsNumToString product.rating
  ++ "\n                                </span>\n                            </p>\n                            <div class=\"mb-3\">\n                                "
  ++ renderEmotionIndicators (product.emotion_tags.getD [])
  ++ "\n                            </div>\n                            <p><strong>Brand:</strong> "
  ++ product.brand
  ++ "</p>\n                            <p><strong>Category:</strong> "
  ++ product.category
  ++ "</p>\n                            "
  ++ (match product.features with
      | some fs => "<p><strong>Features:</strong> " ++ String.intercalate ", " fs ++ "</p>"
      | none => "")
  ++ "\n                        </div>\n                    </div>\n                    \n                    "
  ++ similarSectionHtml similarProducts
  ++ "\n                "

/-- Sentiment summary written into `sentimentAnalysis` (lines 242-246). -/
def sentimentHtml (sentiment : Sentiment) : String :=
  "\n                <h5><i class=\"bi bi-emoji-smile\"></i> We understand you\x27re feeling: "
  ++ sentiment.primary_emotion
  ++ "</h5>\n                <p>Mood: "
  ++ sentiment.mood_category
  ++ " | Intensity: "
  ++ jsNumToString sentiment.emotion_intensity
  ++ "/10</p>\n                <p><small>Shopping motivation: "
  ++ sentiment.shopping_motivation
  ++ "</small></p>\n            "

/-- One search-result row (lines 312-339). -/
def searchResultHtml (result : SearchResult) : String :=
  "\n                        <div class=\"search-result-item\">\n                            <div class=\"row\">\n                                <div class=\"col-md-8\">\n                                    <h6>"
  ++ result.product.name
  ++ " \n                                        <span class=\"similarity-score\">"
  ++ toString (jsRound100 result.similarity_score)
  ++ "% match</span>\n                                    </h6>\n                                    <p class=\"text-muted mb-2\">"
  ++ result.product.description
  ++ "</p>\n                                    <p class=\"mb-1\"><strong class=\"text-success\">$"
  ++ jsNumToString result.product.price
  ++ "</strong></p>\n                                    <div class=\"mb-2\">\n                                        "
  ++ renderEmotionIndicators (result.product.emotion_tags.getD [])
  ++ "\n                                    </div>\n                                    <div class=\"alert alert-light p-2\">\n                                        <small><i class=\"bi bi-lightbulb text-warning\"></i> "
  ++ result.explanation
  ++ "</small>\n                                    </div>\n                                </div>\n                                <div class=\"col-md-4 text-end\">\n                                    <div class=\"btn-group-vertical\">\n                                        <button class=\"btn btn-primary btn-sm\" onclick=\"app.viewProduct(\x27"
  ++ result.product.product_id
  ++ "\x27)\">\n                                            <i class=\"bi bi-eye\"></i> View Details\n                                        </button>\n                                        <button class=\"btn btn-outline-success btn-sm\" onclick=\"app.trackInteraction(\x27"
  ++ result.product.product_id
  ++ "\x27, \x27like\x27)\">\n                                            <i class=\"bi bi-heart\"></i> Like\n                                        </button>\n                                    </div>\n                                </div>\n                            </div>\n                        </div>\n                    "

/-- Non-empty search results markup (lines 309-340). -/
def searchResultsHtml (query : String) (results : List SearchResult) : String :=
  "\n                    <h5>Search Results for \"" ++ query ++ "\"</h5>\n                    "
  ++ String.join (results.map searchResultHtml)
  ++ "\n                "

/-- Spinner label of the analyze button while the mood flow is running. -/
def analyzeBtnSpinnerLabel : String :=
  "<span class=\"spinner-border spinner-border-sm\"></span> Analyzing..."

/-- Default label the `finally` block of the mood flow restores. -/
def analyzeBtnDefaultLabel : String :=
  "<i class=\"bi bi-magic\"></i> Get Personalized Recommendations"

/-- Spinner label of the search button while the search flow is running. -/
def searchBtnSpinnerLabel : String :=
  "<span class=\"spinner-border spinner-border-sm\"></span>"

/-- Default label the `finally` block of the search flow restores. -/
def searchBtnDefaultLabel : String :=
  "<i class=\"bi bi-search\"></i> Search"

/-- Context object the mood flow passes to `getRecommendations` (lines 249-253). -/
def recommendationContext (sentiment : Sentiment) (moodText : String) :
    List (String × JVal) :=
  [("mood", JVal.str sentiment.primary_emotion),
   ("mood_category", JVal.str sentiment.mood_category),
   ("user_input", JVal.str moodText)]

/-- Outcomes of the two sequential calls the mood flow can make. -/
structure MoodEnv where
  sentimentOutcome : HttpOutcome SentimentResponse
  recommendationsOutcome : HttpOutcome RecommendationsResponse

/-- Model of `analyzeMoodAndRecommend` (lines 219-284): validate the
trimmed input, disable and relabel the button, analyze the mood, on a
successful envelope store the emotion and render the sentiment summary,
fetch recommendations, on a successful envelope render the cards and
reveal the section; any thrown error is logged and alerted; the button is
re-enabled and relabeled in every case (`finally`). -/
def analyzeMoodAndRecommend (s : ClientState) (moodInputValue : String)
    (env : MoodEnv) : List Event × ClientState :=
  let moodText := jsTrim moodInputValue
  if moodText = "" then
    ([Event.alert "Please tell us how you\x27re feeling first!"], s)
  else
    let pre := [Event.setDisabled "analyzeMoodBtn" true,
                Event.setHTML "analyzeMoodBtn" analyzeBtnSpinnerLabel]
    let fin := [Event.setDisabled "analyzeMoodBtn" false,
                Event.setHTML "analyzeMoodBtn" analyzeBtnDefaultLabel]
    let r1 := makeRequest "/analyze-sentiment" (some (analyzeBody moodText))
                env.sentimentOutcome
    match r1.2 with
    | Except.error _ =>
        (pre ++ r1.1 ++ [Event.consoleError "Error:",
           Event.alert "Sorry, something went wrong. Please try again."] ++ fin, s)
    | Except.ok sentimentResponse =>
      if sentimentResponse.success then
        let sentiment := sentimentResponse.sentiment
        let s2 : ClientState := { s with currentEmotion := some sentiment.primary_emotion }
        let evS := [Event.setHTML "sentimentAnalysis" (sentimentHtml sentiment)]
        let r2 := makeRequest "/recommendations"
                    (some (recommendationsBody s2 (recommendationContext sentiment moodText)))
                    env.recommendationsOutcome
        match r2.2 with
        | Except.error _ =>
            (pre ++ r1.1 ++ evS ++ r2.1 ++ [Event.consoleError "Error:",
               Event.alert "Sorry, something went wrong. Please try again."] ++ fin, s2)
        | Except.ok recommendationsResponse =>
          if recommendationsResponse.success then
            (pre ++ r1.1 ++ evS ++ r2.1 ++
               [Event.setHTML "recommendationsList"
                  (String.join (recommendationsResponse.recommendations.map renderRecommendation)),
                Event.setDisplay "recommendationsSection" "block",
                Event.scrollIntoView "recommendationsSection"] ++ fin, s2)
          else (pre ++ r1.1 ++ evS ++ r2.1 ++ fin, s2)
      else (pre ++ r1.1 ++ fin, s)

/-- Model of `performSearch` (lines 286-350): validate the trimmed query,
disable and relabel the button, search with the current emotion, render
the empty-state message or the result rows on a successful envelope; any
thrown error is logged and alerted; the button is re-enabled and
relabeled in every case (`finally`). -/
def performSearch (s : ClientState) (searchInputValue : String)
    (searchOutcome : HttpOutcome SearchResponse) : List Event :=
  let query := jsTrim searchInputValue
  if query = "" then
    [Event.alert "Please enter a search query!"]
  else
    let pre := [Event.setDisabled "searchBtn" true,
                Event.setHTML "searchBtn" searchBtnSpinnerLabel]
    let fin := [Event.setDisabled "searchBtn" false,
                Event.setHTML "searchBtn" searchBtnDefaultLabel]
    let r1 := makeRequest "/search" (some (searchBody query s.currentEmotion)) searchOutcome
    match r1.2 with
    | Except.error _ =>
        pre ++ r1.1 ++ [Event.consoleError "Search error:",
          Event.alert "Search failed. Please try again."] ++ fin
    | Except.ok searchResponse =>
      if searchResponse.success then
        if searchResponse.results.length = 0 then
          pre ++ r1.1 ++
            [Event.setHTML "searchResults"
               "<p class=\"text-muted\">No products found matching your search.</p>"] ++ fin
        else
          pre ++ r1.1 ++
            [Event.setHTML "searchResults" (searchResultsHtml query searchResponse.results)] ++ fin
      else pre ++ r1.1 ++ fin

/-- Model of `viewProduct` (lines 137-212): await the view tracking call,
then await the similar-products call, and on a successful envelope fill
and show the modal; any error thrown by either awaited call is caught by
the single `catch`, logged, and alerted. -/
def viewProduct (s : ClientState) (productId : String)
    (trackOutcome : HttpOutcome TrackAck)
    (similarOutcome : HttpOutcome SimilarResponse) : List Event :=
  let r1 := makeRequest "/track-interaction"
              (some (trackInteractionBody s productId "view" s.currentEmotion)) trackOutcome
  match r1.2 with
  | Except.error _ =>
      r1.1 ++ [Event.consoleError "Error viewing product:",
        Event.alert "Error loading product details. Please try again."]
  | Except.ok _ =>
    let r2 := makeRequest ("/similar-products/" ++ productId) none similarOutcome
    match r2.2 with
    | Except.error _ =>
        r1.1 ++ r2.1 ++ [Event.consoleError "Error viewing product:",
          Event.alert "Error loading product details. Please try again."]
    | Except.ok similarResponse =>
      if similarResponse.success then
        r1.1 ++ r2.1 ++
          [Event.setText "productModal .modal-title" similarResponse.target_product.name,
           Event.setHTML "productModal .modal-body"
             (modalBodyHtml similarResponse.target_product similarResponse.similar_products),
           Event.showModal "productModal"]
      else r1.1 ++ r2.1

/-- Model of `loadAllProducts` (lines 352-369): fetch the catalog and
render the grid on a successful envelope; on a thrown error log and show
an inline error message. -/
def loadAllProducts (prodOutcome : HttpOutcome ProductsResponse) : List Event :=
  let r1 := makeRequest "/products" none prodOutcome
  match r1.2 with
  | Except.error _ =>
      r1.1 ++ [Event.consoleError "Error loading products:",
        Event.setHTML "productsList"
          "<div class=\"col-12\"><p class=\"text-danger\">Error loading products. Please refresh the page.</p></div>"]
  | Except.ok response =>
    if response.success then
      r1.1 ++ [Event.setHTML "productsList"
        (String.join (response.products.map (fun p => renderProductCard p {})))]
    else r1.1

/-- Predicate selecting user-visible alert events. -/
def isAlertEv : Event → Bool
  | Event.alert _ => true
  | _ => false

/-- Predicate selecting network-request events. -/
def isRequestEv : Event → Bool
  | Event.request _ _ => true
  | _ => false

/-- Predicate selecting requests to one endpoint. -/
def isRequestTo (endpoint : String) : Event → Bool
  | Event.request e _ => e == endpoint
  | _ => false

/-- Predicate selecting console-error events. -/
def isConsoleErrorEv : Event → Bool
  | Event.consoleError _ => true
  | _ => false

/-- Predicate selecting local-storage writes. -/
def isLocalSetEv : Event → Bool
  | Event.localSet _ _ => true
  | _ => false

/-- Number of user-visible alerts in a trace. -/
def alertCount (evs : List Event) : Nat := (evs.filter isAlertEv).length

/-- Number of network requests in a trace. -/
def requestCount (evs : List Event) : Nat := (evs.filter isRequestEv).length

/-- Predicate selecting updates of a given DOM element. -/
def touchesElem (elemId : String) : Event → Bool
  | Event.setHTML e _ => e == elemId
  | Event.setText e _ => e == elemId
  | Event.setDisplay e _ => e == elemId
  | Event.scrollIntoView e => e == elemId
  | Event.showModal e => e == elemId
  | _ => false

/-- Predicate selecting DOM updates of anything other than the two
trigger buttons (whose relabeling belongs to flow control, not content). -/
def isContainerUpdate : Event → Bool
  | Event.setHTML e _ => !(e == "analyzeMoodBtn") && !(e == "searchBtn")
  | Event.setText _ _ => true
  | Event.setDisplay _ _ => true
  | Event.scrollIntoView _ => true
  | Event.showModal _ => true
  | _ => false

/-- Last disabled-state a trace leaves a button in (`none` when the trace
never touches it, i.e. the button keeps its initial enabled state). -/
def finalDisabled (btn : String) (evs : List Event) : Option Bool :=
  evs.foldl (fun acc e =>
    match e with
    | Event.setDisabled b v => if b == btn then some v else acc
    | _ => acc) none

/-- Last label a trace leaves a button with. -/
def finalLabel (btn : String) (evs : List Event) : Option String :=
  evs.foldl (fun acc e =>
    match e with
    | Event.setHTML b v => if b == btn then some v else acc
    | _ => acc) none

/-- Sample product used to instantiate witnesses. -/
def sampleProduct : Product :=
  { product_id := "p1"
    name := "Cozy Blanket"
    description := "Soft fleece blanket"
    price := ⟨1999, 2⟩
    category := "home"
    rating := ⟨32, 1⟩
    brand := "Acme"
    features := none
    emotion_tags := none
    image_url := none }

/-- Sample sentiment payload used to instantiate witnesses. -/
def sampleSentiment : Sentiment :=
  { primary_emotion := "joy"
    mood_category := "positive"
    emotion_intensity := ⟨7, 0⟩
    shopping_motivation := "treat yourself" }

/-- Sample client state used to instantiate witnesses. -/
def sampleState : ClientState := { userId := "user_x", currentEmotion := none }

/-- Appending to the generated-identity marker cannot give the empty string. -/
theorem user_prefix_ne_empty (rand : String) : ("user_" ++ rand) ≠ "" := by
  intro hh
  have hl := congrArg String.length hh
  simp [String.length_append] at hl
  exact absurd hl.1 (by decide)

/-- Claim C3 (confirmed): a mood or search input whose trimmed form is
empty triggers no network request, and the trigger control is never
disabled (it stays enabled). -/
theorem C3_empty_input_no_request (s : ClientState) (input : String)
    (h : jsTrim input = "") (env : MoodEnv) (so : HttpOutcome SearchResponse) :
    requestCount (analyzeMoodAndRecommend s input env).1 = 0 ∧
    finalDisabled "analyzeMoodBtn" (analyzeMoodAndRecommend s input env).1 = none ∧
    requestCount (performSearch s input so) = 0 ∧
    finalDisabled "searchBtn" (performSearch s input so) = none := by
  simp [analyzeMoodAndRecommend, performSearch, h, requestCount, finalDisabled,
    isRequestEv, List.filter]

/-- Witness for C3: the three-space input. -/
theorem C3_empty_input_no_request_witness :
    jsTrim "   " = "" ∧
    (requestCount (analyzeMoodAndRecommend sampleState "   "
        ⟨HttpOutcome.transportError, HttpOutcome.transportError⟩).1 = 0 ∧
     finalDisabled "analyzeMoodBtn" (analyzeMoodAndRecommend sampleState "   "
        ⟨HttpOutcome.transportError, HttpOutcome.transportError⟩).1 = none ∧
     requestCount (performSearch sampleState "   " HttpOutcome.transportError) = 0 ∧
     finalDisabled "searchBtn" (performSearch sampleState "   " HttpOutcome.transportError) = none) :=
  ⟨by decide, C3_empty_input_no_request sampleState "   " (by decide) _ _⟩

/-- Claim C5 (confirmed): the recommendations body consists of exactly
`user_id`, `context`, `limit` with `limit = 8`; the search body consists
of exactly `query`, `emotion_context`, `limit` with `limit = 10`; and the
flows serialize exactly these bodies into their requests. -/
theorem C5_request_bodies (s : ClientState) (ctx : List (String × JVal))
    (q : String) (ec : Option String) (input : String)
    (h : ¬ jsTrim input = "") (so : HttpOutcome SearchResponse) :
    (recommendationsBody s ctx).map Prod.fst = ["user_id", "context", "limit"] ∧
    (recommendationsBody s ctx).lookup "limit" = some (JVal.num ⟨8, 0⟩) ∧
    (searchBody q ec).map Prod.fst = ["query", "emotion_context", "limit"] ∧
    (searchBody q ec).lookup "limit" = some (JVal.num ⟨10, 0⟩) ∧
    Event.request "/search" (some (searchBody (jsTrim input) s.currentEmotion))
      ∈ performSearch s input so ∧
    (∀ st sr ro, statusOk st = true → sr.success = true →
      Event.request "/recommendations"
        (some (recommendationsBody
          { userId := s.userId, currentEmotion := some sr.sentiment.primary_emotion }
          (recommendationContext sr.sentiment (jsTrim input))))
        ∈ (analyzeMoodAndRecommend s input ⟨HttpOutcome.response st sr, ro⟩).1) := by
  refine ⟨rfl, rfl, rfl, rfl, ?_, ?_⟩
  · cases so with
    | transportError => simp [performSearch, h, makeRequest]
    | response st b =>
      by_cases hst : statusOk st
      · by_cases hs : b.success
        · by_cases hz : b.results.length = 0 <;>
            simp [performSearch, h, makeRequest, hst, hs, hz]
        · simp [performSearch, h, makeRequest, hst, hs]
      · simp [performSearch, h, makeRequest, hst]
  · intro st sr ro hst hs
    cases ro with
    | transportError => simp [analyzeMoodAndRecommend, h, makeRequest, hst, hs]
    | response st2 rr =>
      by_cases hst2 : statusOk st2
      · by_cases hs2 : rr.success <;>
          simp [analyzeMoodAndRecommend, h, makeRequest, hst, hs, hst2, hs2]
      · simp [analyzeMoodAndRecommend, h, makeRequest, hst, hst2, hs]

/-- Witness for C5: a concrete search and mood invocation. -/
theorem C5_request_bodies_witness :
    ¬ jsTrim "mug" = "" ∧
    Event.request "/search" (some (searchBody (jsTrim "mug") sampleState.currentEmotion))
      ∈ performSearch sampleState "mug" HttpOutcome.transportError :=
  ⟨by decide,
   (C5_request_bodies sampleState [] "mug" none "mug" (by decide)
     HttpOutcome.transportError).2.2.2.2.1⟩

/-- Claim C7 (confirmed): with no persisted identity the constructor
generates exactly one identity string and writes it to local storage
once; both request-building operations embed that same string; a client
constructed from the resulting storage (or from any persisted non-empty
identity) reuses it and generates nothing. -/
theorem C7_identity_generation (rand rand2 : String) (ls0 : LocalStorage)
    (h : ls0.userId = none) (ctx : List (String × JVal)) (pid act : String)
    (em : Option String) (uid : String) (hu : ¬ uid = "") (ls1 : LocalStorage)
    (h1 : ls1.userId = some uid) :
    ((constructClient ls0 rand).1.userId = "user_" ++ rand ∧
     (constructClient ls0 rand).2.1.userId = some ("user_" ++ rand) ∧
     (constructClient ls0 rand).2.2 = [Event.localSet "userId" ("user_" ++ rand)]) ∧
    ((recommendationsBody (constructClient ls0 rand).1 ctx).lookup "user_id" =
       some (JVal.str ("user_" ++ rand)) ∧
     (trackInteractionBody (constructClient ls0 rand).1 pid act em).lookup "user_id" =
       some (JVal.str ("user_" ++ rand))) ∧
    ((constructClient (constructClient ls0 rand).2.1 rand2).1.userId = "user_" ++ rand ∧
     (constructClient (constructClient ls0 rand).2.1 rand2).2.2 = [] ∧
     (constructClient (constructClient ls0 rand).2.1 rand2).2.1 =
       (constructClient ls0 rand).2.1) ∧
    ((constructClient ls1 rand).1.userId = uid ∧
     (constructClient ls1 rand).2.2 = [] ∧
     (constructClient ls1 rand).2.1 = ls1) := by
  have hne := user_prefix_ne_empty rand
  simp [constructClient, generateUserId, strTruthy, h, h1, hne, hu,
    recommendationsBody, trackInteractionBody, List.lookup]

/-- Witness for C7: fresh storage, then the persisted identity `user_z`. -/
theorem C7_identity_generation_witness :
    (⟨none⟩ : LocalStorage).userId = none ∧
    ¬ ("user_z" : String) = "" ∧
    (⟨some "user_z"⟩ : LocalStorage).userId = some "user_z" ∧
    (constructClient ⟨none⟩ "abc").2.2 = [Event.localSet "userId" ("user_" ++ "abc")] ∧
    (constructClient ⟨some "user_z"⟩ "abc").2.2 = [] :=
  ⟨rfl, by decide, rfl,
   (C7_identity_generation "abc" "zzz" ⟨none⟩ rfl [] "p1" "view" none
     "user_z" (by decide) ⟨some "user_z"⟩ rfl).1.2.2,
   (C7_identity_generation "abc" "zzz" ⟨none⟩ rfl [] "p1" "view" none
     "user_z" (by decide) ⟨some "user_z"⟩ rfl).2.2.2.2.1⟩

/-- Claim C8 (confirmed): the product view flow always issues the
track-interaction request, with action `view`, as its very first event,
hence before the similar-products request and regardless of how the
similar-products call turns out. -/
theorem C8_track_view_first (s : ClientState) (pid : String)
    (tOut : HttpOutcome TrackAck) (sOut : HttpOutcome SimilarResponse) :
    (viewProduct s pid tOut sOut).head? =
      some (Event.request "/track-interaction"
        (some (trackInteractionBody s pid "view" s.currentEmotion))) ∧
    (trackInteractionBody s pid "view" s.currentEmotion).lookup "action" =
      some (JVal.str "view") := by
  refine ⟨?_, rfl⟩
  cases tOut with
  | transportError => rfl
  | response st a =>
    by_cases hst : statusOk st
    · cases sOut with
      | transportError => simp [viewProduct, makeRequest, hst]
      | response st2 b =>
        by_cases hst2 : statusOk st2
        · by_cases hs : b.success <;> simp [viewProduct, makeRequest, hst, hst2, hs]
        · simp [viewProduct, makeRequest, hst, hst2]
    · simp [viewProduct, makeRequest, hst]

/-- Claim C2 (confirmed): on any non-2xx response in the mood or search
flow the trigger control ends re-enabled with its default label and
exactly one alert fires; and the re-enabling (with the default label)
happens for every outcome whatsoever. -/
theorem C2_non2xx_single_alert_reenable (s : ClientState) (input : String)
    (h : ¬ jsTrim input = "") :
    (∀ st sb ro, statusOk st = false →
       alertCount (analyzeMoodAndRecommend s input ⟨HttpOutcome.response st sb, ro⟩).1 = 1 ∧
       finalDisabled "analyzeMoodBtn"
         (analyzeMoodAndRecommend s input ⟨HttpOutcome.response st sb, ro⟩).1 = some false ∧
       finalLabel "analyzeMoodBtn"
         (analyzeMoodAndRecommend s input ⟨HttpOutcome.response st sb, ro⟩).1 =
         some analyzeBtnDefaultLabel) ∧
    (∀ st sb st2 rb, statusOk st = true → sb.success = true → statusOk st2 = false →
       alertCount (analyzeMoodAndRecommend s input
         ⟨HttpOutcome.response st sb, HttpOutcome.response st2 rb⟩).1 = 1 ∧
       finalDisabled "analyzeMoodBtn" (analyzeMoodAndRecommend s input
         ⟨HttpOutcome.response st sb, HttpOutcome.response st2 rb⟩).1 = some false ∧
       finalLabel "analyzeMoodBtn" (analyzeMoodAndRecommend s input
         ⟨HttpOutcome.response st sb, HttpOutcome.response st2 rb⟩).1 =
         some analyzeBtnDefaultLabel) ∧
    (∀ env, finalDisabled "analyzeMoodBtn" (analyzeMoodAndRecommend s input env).1 = some false ∧
       finalLabel "analyzeMoodBtn" (analyzeMoodAndRecommend s input env).1 =
         some analyzeBtnDefaultLabel) ∧
    (∀ st sb, statusOk st = false →
       alertCount (performSearch s input (HttpOutcome.response st sb)) = 1 ∧
       finalDisabled "searchBtn" (performSearch s input (HttpOutcome.response st sb)) = some false ∧
       finalLabel "searchBtn" (performSearch s input (HttpOutcome.response st sb)) =
         some searchBtnDefaultLabel) ∧
    (∀ so, finalDisabled "searchBtn" (performSearch s input so) = some false ∧
       finalLabel "searchBtn" (performSearch s input so) = some searchBtnDefaultLabel) := by
  refine ⟨?_, ?_, ?_, ?_, ?_⟩
  · intro st sb ro hst
    simp [analyzeMoodAndRecommend, makeRequest, h, hst, alertCount, isAlertEv,
      finalDisabled, finalLabel, List.filter]
  · intro st sb st2 rb hst hs hst2
    simp [analyzeMoodAndRecommend, makeRequest, h, hst, hs, hst2, alertCount, isAlertEv,
      finalDisabled, finalLabel, List.filter]
  · rintro ⟨so, ro⟩
    cases so with
    | transportError =>
      simp [analyzeMoodAndRecommend, makeRequest, h, finalDisabled, finalLabel]
    | response st sb =>
      by_cases hst : statusOk st
      · by_cases hs : sb.success
        · cases ro with
          | transportError =>
            simp [analyzeMoodAndRecommend, makeRequest, h, hst, hs, finalDisabled, finalLabel]
          | response st2 rb =>
            by_cases hst2 : statusOk st2
            · by_cases hs2 : rb.success <;>
                simp [analyzeMoodAndRecommend, makeRequest, h, hst, hs, hst2, hs2,
                  finalDisabled, finalLabel]
            · simp [analyzeMoodAndRecommend, makeRequest, h, hst, hs, hst2,
                finalDisabled, finalLabel]
        · simp [analyzeMoodAndRecommend, makeRequest, h, hst, hs, finalDisabled, finalLabel]
      · simp [analyzeMoodAndRecommend, makeRequest, h, hst, finalDisabled, finalLabel]
  · intro st sb hst
    simp [performSearch, makeRequest, h, hst, alertCount, isAlertEv,
      finalDisabled, finalLabel, List.filter]
  · intro so
    cases so with
    | transportError => simp [performSearch, makeRequest, h, finalDisabled, finalLabel]
    | response st sb =>
      by_cases hst : statusOk st
      · by_cases hs : sb.success
        · by_cases hz : sb.results.length = 0 <;>
            simp [performSearch, makeRequest, h, hst, hs, hz, finalDisabled, finalLabel]
        · simp [performSearch, makeRequest, h, hst, hs, finalDisabled, finalLabel]
      · simp [performSearch, makeRequest, h, hst, finalDisabled, finalLabel]

/-- Witness for C2: a 500 status on both flows with the input `sad`. -/
theorem C2_non2xx_single_alert_reenable_witness :
    ¬ jsTrim "sad" = "" ∧
    statusOk 500 = false ∧
    alertCount (analyzeMoodAndRecommend sampleState "sad"
      ⟨HttpOutcome.response 500 ⟨true, sampleSentiment⟩, HttpOutcome.transportError⟩).1 = 1 ∧
    alertCount (performSearch sampleState "sad"
      (HttpOutcome.response 500 ⟨true, []⟩)) = 1 :=
  ⟨by decide, by decide,
   ((C2_non2xx_single_alert_reenable sampleState "sad" (by decide)).1
      500 ⟨true, sampleSentiment⟩ HttpOutcome.transportError (by decide)).1,
   ((C2_non2xx_single_alert_reenable sampleState "sad" (by decide)).2.2.2.1
      500 ⟨true, []⟩ (by decide)).1⟩

/-- Sample recommendation used to instantiate witnesses. -/
def sampleRecommendation : Recommendation :=
  { product := sampleProduct
    confidence_score := some ⟨87, 2⟩
    explanation := some "Matches your mood"
    recommendation_reason := none }

/-- Claim C6 (confirmed): on a successful recommendations envelope with N
items (N at most 8) the mood flow writes exactly the N rendered cards
into the recommendations container and makes the section visible. -/
theorem C6_renders_all_recommendations (s : ClientState) (input : String)
    (h : ¬ jsTrim input = "") (st1 st2 : Nat) (sr : SentimentResponse)
    (rr : RecommendationsResponse) (h1 : statusOk st1 = true)
    (h2 : sr.success = true) (h3 : statusOk st2 = true) (h4 : rr.success = true)
    (h5 : rr.recommendations.length ≤ 8) :
    (rr.recommendations.map renderRecommendation).length = rr.recommendations.length ∧
    Event.setHTML "recommendationsList"
        (String.join (rr.recommendations.map renderRecommendation))
      ∈ (analyzeMoodAndRecommend s input
          ⟨HttpOutcome.response st1 sr, HttpOutcome.response st2 rr⟩).1 ∧
    Event.setDisplay "recommendationsSection" "block"
      ∈ (analyzeMoodAndRecommend s input
          ⟨HttpOutcome.response st1 sr, HttpOutcome.response st2 rr⟩).1 := by
  refine ⟨by simp, ?_, ?_⟩ <;>
    simp [analyzeMoodAndRecommend, makeRequest, h, h1, h2, h3, h4]

/-- Witness for C6: one recommendation returned with 2xx statuses. -/
theorem C6_renders_all_recommendations_witness :
    ¬ jsTrim "sad" = "" ∧
    Event.setDisplay "recommendationsSection" "block"
      ∈ (analyzeMoodAndRecommend sampleState "sad"
          ⟨HttpOutcome.response 200 ⟨true, sampleSentiment⟩,
           HttpOutcome.response 200 ⟨true, [sampleRecommendation]⟩⟩).1 :=
  ⟨by decide,
   (C6_renders_all_recommendations sampleState "sad" (by decide) 200 200
     ⟨true, sampleSentiment⟩ ⟨true, [sampleRecommendation]⟩ (by decide) rfl
     (by decide) rfl (by decide)).2.2⟩

/-- Claim C9 (confirmed): a 2xx envelope with `success = false` makes
every flow silently do nothing — no alert, no console error, and no DOM
container update attributable to that response — while the mood and
search flows still re-enable their trigger control with its default
label; the catalog and view flows emit nothing but their requests. -/
theorem C9_success_false_silent (s : ClientState) (input pid : String)
    (h : ¬ jsTrim input = "") :
    (∀ st sb ro, statusOk st = true → sb.success = false →
       (analyzeMoodAndRecommend s input ⟨HttpOutcome.response st sb, ro⟩).1.any isAlertEv = false ∧
       (analyzeMoodAndRecommend s input ⟨HttpOutcome.response st sb, ro⟩).1.any isContainerUpdate = false ∧
       (analyzeMoodAndRecommend s input ⟨HttpOutcome.response st sb, ro⟩).1.any isConsoleErrorEv = false ∧
       finalDisabled "analyzeMoodBtn"
         (analyzeMoodAndRecommend s input ⟨HttpOutcome.response st sb, ro⟩).1 = some false ∧
       finalLabel "analyzeMoodBtn"
         (analyzeMoodAndRecommend s input ⟨HttpOutcome.response st sb, ro⟩).1 =
         some analyzeBtnDefaultLabel) ∧
    (∀ st sb st2 rb, statusOk st = true → sb.success = true →
       statusOk st2 = true → rb.success = false →
       (analyzeMoodAndRecommend s input
         ⟨HttpOutcome.response st sb, HttpOutcome.response st2 rb⟩).1.any isAlertEv = false ∧
       (analyzeMoodAndRecommend s input
         ⟨HttpOutcome.response st sb, HttpOutcome.response st2 rb⟩).1.any
           (touchesElem "recommendationsList") = false ∧
       (analyzeMoodAndRecommend s input
         ⟨HttpOutcome.response st sb, HttpOutcome.response st2 rb⟩).1.any
           (touchesElem "recommendationsSection") = false ∧
       (analyzeMoodAndRecommend s input
         ⟨HttpOutcome.response st sb, HttpOutcome.response st2 rb⟩).1.any
           isConsoleErrorEv = false ∧
       finalDisabled "analyzeMoodBtn" (analyzeMoodAndRecommend s input
         ⟨HttpOutcome.response st sb, HttpOutcome.response st2 rb⟩).1 = some false ∧
       finalLabel "analyzeMoodBtn" (analyzeMoodAndRecommend s input
         ⟨HttpOutcome.response st sb, HttpOutcome.response st2 rb⟩).1 =
         some analyzeBtnDefaultLabel) ∧
    (∀ st sb, statusOk st = true → sb.success = false →
       (performSearch s input (HttpOutcome.response st sb)).any isAlertEv = false ∧
       (performSearch s input (HttpOutcome.response st sb)).any
         (touchesElem "searchResults") = false ∧
       (performSearch s input (HttpOutcome.response st sb)).any isConsoleErrorEv = false ∧
       finalDisabled "searchBtn" (performSearch s input (HttpOutcome.response st sb)) = some false ∧
       finalLabel "searchBtn" (performSearch s input (HttpOutcome.response st sb)) =
         some searchBtnDefaultLabel) ∧
    (∀ st pb, statusOk st = true → pb.success = false →
       loadAllProducts (HttpOutcome.response st pb) = [Event.request "/products" none]) ∧
    (∀ st ta st2 sb, statusOk st = true → statusOk st2 = true → sb.success = false →
       viewProduct s pid (HttpOutcome.response st ta) (HttpOutcome.response st2 sb) =
         [Event.request "/track-interaction"
            (some (trackInteractionBody s pid "view" s.currentEmotion)),
          Event.request ("/similar-products/" ++ pid) none]) := by
  refine ⟨?_, ?_, ?_, ?_, ?_⟩
  · intro st sb ro hst hs
    simp [analyzeMoodAndRecommend, makeRequest, h, hst, hs, isAlertEv,
      isContainerUpdate, isConsoleErrorEv, finalDisabled, finalLabel]
  · intro st sb st2 rb hst hs hst2 hs2
    simp [analyzeMoodAndRecommend, makeRequest, h, hst, hs, hst2, hs2, isAlertEv,
      touchesElem, isConsoleErrorEv, finalDisabled, finalLabel]
  · intro st sb hst hs
    simp [performSearch, makeRequest, h, hst, hs, isAlertEv, touchesElem,
      isConsoleErrorEv, finalDisabled, finalLabel]
  · intro st pb hst hs
    simp [loadAllProducts, makeRequest, hst, hs]
  · intro st ta st2 sb hst hst2 hs
    simp [viewProduct, makeRequest, hst, hst2, hs]

/-- Witness for C9: `success = false` envelopes with 2xx statuses on all
five flows. -/
theorem C9_success_false_silent_witness :
    ¬ jsTrim "sad" = "" ∧
    (analyzeMoodAndRecommend sampleState "sad"
      ⟨HttpOutcome.response 200 ⟨false, sampleSentiment⟩,
       HttpOutcome.transportError⟩).1.any isAlertEv = false ∧
    loadAllProducts (HttpOutcome.response 200 ⟨false, []⟩) =
      [Event.request "/products" none] ∧
    viewProduct sampleState "p1" (HttpOutcome.response 200 ⟨true⟩)
        (HttpOutcome.response 200 ⟨false, sampleProduct, []⟩) =
      [Event.request "/track-interaction"
         (some (trackInteractionBody sampleState "p1" "view" sampleState.currentEmotion)),
       Event.request ("/similar-products/" ++ "p1") none] :=
  ⟨by decide,
   ((C9_success_false_silent sampleState "sad" "p1" (by decide)).1
      200 ⟨false, sampleSentiment⟩ HttpOutcome.transportError (by decide) rfl).1,
   (C9_success_false_silent sampleState "sad" "p1" (by decide)).2.2.2.1
      200 ⟨false, []⟩ (by decide) rfl,
   (C9_success_false_silent sampleState "sad" "p1" (by decide)).2.2.2.2
      200 ⟨true⟩ 200 ⟨false, sampleProduct, []⟩ (by decide) (by decide) rfl⟩

/-- Characters of an n-fold repetition of a one-character string. -/
theorem strRepeat_data_single (s : String) (c : Char) (hs : s.data = [c]) (n : Nat) :
    (strRepeat s n).data = List.replicate n c := by
  induction n with
  | zero => rfl
  | succ k ih => simp [strRepeat, String.data_append, hs, ih, List.replicate_succ]

/-- Floor of a nonnegative decimal that is at most 5 is at most 5. -/
theorem jsFloor_toNat_le_five (r : JsNum) (h0 : 0 ≤ r.mant)
    (h5 : r.mant ≤ 5 * 10 ^ r.exp) : (jsFloor r).toNat ≤ 5 := by
  obtain ⟨a, ha⟩ := Int.eq_ofNat_of_zero_le h0
  have hp : ((10 : Int) ^ r.exp) = ((10 ^ r.exp : Nat) : Int) := by push_cast; ring
  have hle : a ≤ 5 * 10 ^ r.exp := by
    have h5a := h5
    rw [ha, hp] at h5a
    exact_mod_cast h5a
  have hpos : 0 < 10 ^ r.exp := Nat.pos_pow_of_pos _ (by omega)
  have hdiv : a / 10 ^ r.exp ≤ 5 := by
    calc a / 10 ^ r.exp ≤ 5 * 10 ^ r.exp / 10 ^ r.exp := Nat.div_le_div_right hle
    _ = 5 := Nat.mul_div_cancel 5 hpos
  unfold jsFloor
  rw [ha, hp, Int.fdiv_eq_ediv _ (by positivity), ← Int.ofNat_ediv,
    Int.toNat_natCast]
  exact hdiv

/-- Claim C4 (confirmed): the rating span of a rendered card is
`floor(r)` filled glyphs followed by `5 - floor(r)` empty glyphs (the two
runs covering the whole 5-glyph scale) followed, after the template's
layout whitespace, by the literal numeric rating; at rating 3.2 this is
three filled and two empty glyphs plus `3.2`. -/
theorem C4_rating_glyphs (p : Product) (e : ExtraInfo) (h0 : 0 ≤ p.rating.mant)
    (h5 : p.rating.mant ≤ 5 * 10 ^ p.rating.exp) :
    (ratingStars p.rating).data =
      List.replicate (jsFloor p.rating).toNat '★' ++
      List.replicate (5 - (jsFloor p.rating).toNat) '☆' ∧
    (jsFloor p.rating).toNat + (5 - (jsFloor p.rating).toNat) = 5 ∧
    (ratingSpanText p.rating).data =
      (ratingStars p.rating).data ++ ("\n                                ").data ++
      (jsNumToString p.rating).data ∧
    List.IsInfix (ratingSpanText p.rating).data (renderProductCard p e).data ∧
    ratingStars ⟨32, 1⟩ = "★★★☆☆" ∧
    jsNumToString ⟨32, 1⟩ = "3.2" := by
  refine ⟨?_, ?_, ?_, ?_, by decide, by decide⟩
  · simp [ratingStars, String.data_append,
      strRepeat_data_single "★" '★' (by decide),
      strRepeat_data_single "☆" '☆' (by decide)]
  · have := jsFloor_toNat_le_five p.rating h0 h5
    omega
  · simp [ratingSpanText, String.data_append]
  · exact ⟨(cardBeforeRating p e).data, (cardAfterRating p e).data,
      by simp [renderProductCard, String.data_append]⟩

/-- Witness for C4: the sample product, whose rating is 3.2. -/
theorem C4_rating_glyphs_witness :
    0 ≤ sampleProduct.rating.mant ∧
    sampleProduct.rating.mant ≤ 5 * 10 ^ sampleProduct.rating.exp ∧
    ratingStars ⟨32, 1⟩ = "★★★☆☆" ∧
    jsNumToString ⟨32, 1⟩ = "3.2" :=
  ⟨by decide, by decide,
   (C4_rating_glyphs sampleProduct {} (by decide) (by decide)).2.2.2.2.1,
   (C4_rating_glyphs sampleProduct {} (by decide) (by decide)).2.2.2.2.2⟩

/-- Claim C10 (confirmed): a zero confidence score (like a missing one)
suppresses the badge and the recommendation-card class, and an empty
explanation (like a missing one) suppresses the explanation block; the
rendered card is identical to the card with the value absent. -/
theorem C10_falsy_extras_omitted (p : Product) (e : Option String)
    (rr : Option String) (cs : Option JsNum) (k : Nat) :
    confidenceBadge (some ⟨0, k⟩) = "" ∧
    confidenceClass (some ⟨0, k⟩) = "" ∧
    explanationBlock (some "") = "" ∧
    explanationBlock none = "" ∧
    renderProductCard p
        { confidence_score := some ⟨0, k⟩, explanation := e, recommendation_reason := rr } =
      renderProductCard p
        { confidence_score := none, explanation := e, recommendation_reason := rr } ∧
    renderProductCard p
        { confidence_score := cs, explanation := some "", recommendation_reason := rr } =
      renderProductCard p
        { confidence_score := cs, explanation := none, recommendation_reason := rr } := by
  refine ⟨rfl, rfl, rfl, rfl, ?_, ?_⟩ <;>
    simp [renderProductCard, cardBeforeRating, cardAfterRating, ratingSpanText,
      confidenceBadge, confidenceClass, explanationBlock, numTruthy, strTruthy]

/-- Sample similar-products response used by the C1 counterexample. -/
def sampleSimilarResponse : SimilarResponse :=
  { success := true, target_product := sampleProduct, similar_products := [] }

/-- Claim C1 is false on the code: with a failing track-interaction call
(status 500) the view flow does surface an alert to the user and never
issues the similar-products request. -/
theorem C1_counterexample :
    (viewProduct sampleState "p1" (HttpOutcome.response 500 ⟨true⟩)
      (HttpOutcome.response 200 sampleSimilarResponse)).any isAlertEv = true ∧
    (viewProduct sampleState "p1" (HttpOutcome.response 500 ⟨true⟩)
      (HttpOutcome.response 200 sampleSimilarResponse)).any
        (isRequestTo "/similar-products/p1") = false := by
  decide

/-- State of whether an HTTP outcome makes `makeRequest` throw. -/
def outcomeFails {α : Type} : HttpOutcome α → Bool
  | HttpOutcome.transportError => true
  | HttpOutcome.response st _ => !statusOk st

/-- Claim C1 (amended): when the view-tracking call fails, the single
`catch` of `viewProduct` handles it: the failure is logged and surfaced
via exactly one alert, and the similar-products call is not made (the
track-interaction request is the only request of the trace). -/
theorem C1_track_failure_aborts_view (s : ClientState) (pid : String)
    (tOut : HttpOutcome TrackAck) (sOut : HttpOutcome SimilarResponse)
    (h : outcomeFails tOut = true) :
    alertCount (viewProduct s pid tOut sOut) = 1 ∧
    requestCount (viewProduct s pid tOut sOut) = 1 ∧
    (viewProduct s pid tOut sOut).any isConsoleErrorEv = true ∧
    (viewProduct s pid tOut sOut).head? =
      some (Event.request "/track-interaction"
        (some (trackInteractionBody s pid "view" s.currentEmotion))) := by
  cases tOut with
  | transportError =>
    simp [viewProduct, makeRequest, alertCount, requestCount, isAlertEv,
      isRequestEv, isConsoleErrorEv, List.filter]
  | response st a =>
    have hst : statusOk st = false := by
      simpa [outcomeFails] using h
    simp [viewProduct, makeRequest, hst, alertCount, requestCount, isAlertEv,
      isRequestEv, isConsoleErrorEv, List.filter]

/-- Witness for the amended C1: a 500 status on the tracking call. -/
theorem C1_track_failure_aborts_view_witness :
    outcomeFails (HttpOutcome.response 500 (⟨true⟩ : TrackAck)) = true ∧
    alertCount (viewProduct sampleState "p1" (HttpOutcome.response 500 ⟨true⟩)
      (HttpOutcome.response 200 sampleSimilarResponse)) = 1 :=
  ⟨by decide,
   (C1_track_failure_aborts_view sampleState "p1" (HttpOutcome.response 500 ⟨true⟩)
     (HttpOutcome.response 200 sampleSimilarResponse) (by decide)).1⟩

end EmotionApp
